import Mathlib

/-!
Verification of the `nidaq` shared control-data service.

The embedding covers:
* `SharedData` from `manager_server.py` — the in-memory key-value store with
  recursive size estimation and byte quotas (`_get_size`, `get_data`,
  `update_data`, `delete_data`);
* `PythonServer` from `PythonServerClient.py` — the resilient client
  (`read_data`, `write_data`, `close`), with connection failure modelled as
  an explicit outcome of `__init__`;
* the polling bridge `MultiChannelDAQ_GUI.external_toggle_logging` /
  `toggle_logging` from `daq.py` — the local recording flag `is_logging`
  together with the store writes it performs.

Python values are modelled by `PyObj`.  The shallow `sys.getsizeof` figure of
each object is modelled by `getsizeof`, using the usual CPython 64-bit sizes
(16 for `None`, 28 for `bool`/small `int`, 49 + length for an ASCII `str`,
33 + length for `bytes`, and a per-slot overhead for containers).  The exact
constants are irrelevant to every theorem below; what matters is that
`getSize` recurses into containers exactly as `SharedData._get_size` does.
-/

namespace Nidaq

/-- One mebibyte, as used by the 25 MB / 50 MB limits in `update_data`. -/
def MB : Nat := 1024 * 1024

/-- A Python value as stored in the shared dictionary. -/
inductive PyObj where
  | none
  | bool (b : Bool)
  | int (n : Int)
  | str (s : String)
  | bytes (len : Nat)
  | list (xs : List PyObj)
  | dict (entries : List (PyObj × PyObj))

/-- Shallow `sys.getsizeof` of a value (CPython 64-bit figures). -/
def getsizeof : PyObj → Nat
  | .none => 16
  | .bool _ => 28
  | .int _ => 28
  | .str s => 49 + s.length
  | .bytes n => 33 + n
  | .list xs => 56 + 8 * xs.length
  | .dict xs => 64 + 8 * xs.length

mutual

/-- `SharedData._get_size`: shallow size plus a recursive sum over the
contents of dicts and lists (the code also recurses into tuples and sets,
which `PyObj.list` stands for as well). -/
def getSize : PyObj → Nat
  | .list xs => getsizeof (.list xs) + getSizeList xs
  | .dict xs => getsizeof (.dict xs) + getSizePairs xs
  | o => getsizeof o

/-- Sum of `getSize` over the elements of a list/tuple/set. -/
def getSizeList : List PyObj → Nat
  | [] => 0
  | x :: xs => getSize x + getSizeList xs

/-- Sum of `getSize k + getSize v` over the items of a dict. -/
def getSizePairs : List (PyObj × PyObj) → Nat
  | [] => 0
  | p :: xs => getSize p.1 + getSize p.2 + getSizePairs xs

end

/-- The store `SharedData._data`: a string-keyed Python dict, modelled as an
association list in insertion order. -/
abbrev Store := List (String × PyObj)

/-- The store viewed as the Python dict object that `_get_size(self._data)`
is applied to. -/
def storeObj (d : Store) : PyObj :=
  .dict (d.map fun p => (.str p.1, p.2))

/-- `self._get_size(self._data)`: total size of the store dict. -/
def storeSize (d : Store) : Nat := getSize (storeObj d)

/-- Whether `key in d` holds for the store dict. -/
def containsKey (d : Store) (k : String) : Bool :=
  d.any fun p => p.1 == k

/-- Python dict assignment `d[key] = value`: overwrite in place when the key
is present, append otherwise. -/
def dictSet (d : Store) (k : String) (v : PyObj) : Store :=
  cond (containsKey d k)
    (d.map fun p => cond (p.1 == k) (k, v) p)
    (d ++ [(k, v)])

/-- `SharedData.update_data`: reject when the value's recursive size is
≥ 25 MB; otherwise reject when the current total store size is ≥ 50 MB;
otherwise commit.  Returns the new store and the boolean result. -/
def update_data (d : Store) (key : String) (value : PyObj) : Store × Bool :=
  let value_size := getSize value
  if 25 * MB ≤ value_size then
    (d, false)
  else
    let current_size := storeSize d
    if 50 * MB ≤ current_size then
      (d, false)
    else
      (dictSet d key value, true)

/-- `SharedData.delete_data`: remove the key when present, report whether it
existed. -/
def delete_data (d : Store) (key : String) : Store × Bool :=
  cond (containsKey d key)
    (d.filter fun p => !(p.1 == key), true)
    (d, false)

/-- Lookup in the copy returned by `SharedData.get_data`
(`data[key]` when `key in data`). -/
def getVal (d : Store) (k : String) : Option PyObj :=
  d.lookup k

/-! ### Reachable store states

`SharedData` starts with `self._data = {}` and is mutated only through
`update_data` and `delete_data`. -/

/-- One mutating call on the store. -/
inductive Op where
  | update (k : String) (v : PyObj)
  | delete (k : String)

/-- Apply one mutating call, keeping the resulting store. -/
def applyOp (d : Store) : Op → Store
  | .update k v => (update_data d k v).1
  | .delete k => (delete_data d k).1

/-- The store reached from the empty store by a sequence of calls. -/
def run (ops : List Op) : Store := ops.foldl applyOp []

/-! ### The client (`PythonServer` in `PythonServerClient.py`) -/

/-- Outcome of `self.manager.connect()` inside `PythonServer.__init__`:
success, `ConnectionRefusedError`, or any other exception (the bare
`except Exception` arm, which also covers authentication failures). -/
inductive ConnectResult where
  | ok
  | refused
  | unexpected
deriving DecidableEq

/-- The client's own references: `self.shared_data` (the remote handle,
`true` when held) and `self.manager` (`true` when the manager reference is
still set). -/
structure ClientState where
  shared_data : Bool
  manager : Bool
deriving DecidableEq

/-- `PythonServer.__init__`: the manager reference is always created; the
handle is obtained only when `connect()` succeeds, and every failure is
caught, leaving `self.shared_data = None`. -/
def PythonServer.init : ConnectResult → ClientState
  | .ok => ⟨true, true⟩
  | .refused => ⟨false, true⟩
  | .unexpected => ⟨false, true⟩

/-- The value `PythonServer.read_data` returns for `key` through a live
handle: `data[key] if key in data else None`. -/
def readFromStore (d : Store) (k : String) : PyObj :=
  match d.lookup k with
  | some v => v
  | Option.none => .none

/-- `PythonServer.read_data`: `None` when no handle is held, otherwise the
lookup in the `get_data` copy (with `None` for an absent key). -/
def read_data (c : ClientState) (d : Store) (k : String) : PyObj :=
  if c.shared_data then readFromStore d k else .none

/-- `PythonServer.write_data`, observed through its effect on the store:
a no-op when no handle is held, otherwise `update_data` (whose boolean
result is only logged). -/
def write_data (c : ClientState) (d : Store) (k : String) (v : PyObj) : Store :=
  if c.shared_data then (update_data d k v).1 else d

/-- `PythonServer.close`: when the manager reference is still set, drop both
references; otherwise do nothing. -/
def close (c : ClientState) : ClientState :=
  if c.manager then ⟨false, false⟩ else c

/-! ### The polling bridge (`MultiChannelDAQ_GUI` in `daq.py`) -/

/-- Python truthiness of a stored value, as used by
`if recording_command and not self.is_logging`. -/
def truthy : PyObj → Bool
  | .none => false
  | .bool b => b
  | .int n => n != 0
  | .str s => s != ""
  | .bytes n => n != 0
  | .list xs => !xs.isEmpty
  | .dict xs => !xs.isEmpty

/-- The `is not None` test of `external_toggle_logging`. -/
def isNone : PyObj → Bool
  | .none => true
  | _ => false

/-- The bridge-side state: the local recording flag `self.is_logging`, the
client `self.server`, and the shared store it talks to. -/
structure DAQState where
  is_logging : Bool
  client : ClientState
  store : Store

/-- `MultiChannelDAQ_GUI.toggle_logging`, restricted to its coordination
effects: flip `self.is_logging` and write the `recording` status flag
(1 on start, 0 on stop) through the client.  The HDF5 file handling is out
of scope per the spec. -/
def toggle_logging (st : DAQState) : DAQState :=
  if st.is_logging then
    { st with is_logging := false,
              store := write_data st.client st.store "recording" (.int 0) }
  else
    { st with is_logging := true,
              store := write_data st.client st.store "recording" (.int 1) }

/-- `MultiChannelDAQ_GUI.external_toggle_logging`: one poll cycle.  Read
`recording_command`; when it is not `None` and demands a transition, perform
`toggle_logging` and write `None` back; otherwise do nothing. -/
def external_toggle_logging (st : DAQState) : DAQState :=
  let rc := read_data st.client st.store "recording_command"
  if isNone rc then
    st
  else if truthy rc && !st.is_logging then
    let st1 := toggle_logging st
    { st1 with store := write_data st1.client st1.store "recording_command" .none }
  else if !truthy rc && st.is_logging then
    let st1 := toggle_logging st
    { st1 with store := write_data st1.client st1.store "recording_command" .none }
  else
    st

/-- Every value held in the store passed the 25 MB per-value check. -/
def EntriesOK (d : Store) : Prop := ∀ p ∈ d, getSize p.2 < 25 * MB

/-! ## Helper lemmas -/

theorem beq_comm_false {a b : String} (h : (a == b) = false) : (b == a) = false :=
  beq_eq_false_iff_ne.mpr fun e => (beq_eq_false_iff_ne.mp h) e.symm

theorem update_data_reject_value (d : Store) (k : String) (v : PyObj)
    (hv : 25 * MB ≤ getSize v) :
    update_data d k v = (d, false) := by
  unfold update_data
  simp [hv]

theorem update_data_reject_total (d : Store) (k : String) (v : PyObj)
    (hv : getSize v < 25 * MB) (hd : 50 * MB ≤ storeSize d) :
    update_data d k v = (d, false) := by
  unfold update_data
  simp [not_le.mpr hv, hd]

theorem update_data_commit (d : Store) (k : String) (v : PyObj)
    (hv : getSize v < 25 * MB) (hd : storeSize d < 50 * MB) :
    update_data d k v = (dictSet d k v, true) := by
  unfold update_data
  simp [not_le.mpr hv, not_le.mpr hd]

theorem lookup_map_overwrite (d : Store) (k : String) (v : PyObj)
    (h : containsKey d k = true) :
    (d.map fun p => cond (p.1 == k) (k, v) p).lookup k = some v := by
  induction d with
  | nil => simp [containsKey] at h
  | cons a t ih =>
    simp only [containsKey, List.any_cons, Bool.or_eq_true] at h
    cases ha : (a.1 == k) with
    | true =>
      simp only [List.map_cons, ha, cond_true, List.lookup, beq_self_eq_true]
    | false =>
      have hk : (k == a.1) = false := beq_comm_false ha
      simp only [List.map_cons, ha, cond_false, List.lookup, hk]
      exact ih (h.resolve_left (by simp [ha]))

theorem lookup_append_new (d : Store) (k : String) (v : PyObj)
    (h : containsKey d k = false) :
    (d ++ [(k, v)]).lookup k = some v := by
  induction d with
  | nil => simp [List.lookup]
  | cons a t ih =>
    simp only [containsKey, List.any_cons, Bool.or_eq_false_iff] at h
    have hk : (k == a.1) = false := beq_comm_false h.1
    simp only [List.cons_append, List.lookup, hk]
    exact ih (by simpa [containsKey] using h.2)

theorem lookup_dictSet_self (d : Store) (k : String) (v : PyObj) :
    (dictSet d k v).lookup k = some v := by
  unfold dictSet
  cases h : containsKey d k with
  | true => simpa using lookup_map_overwrite d k v h
  | false => simpa using lookup_append_new d k v h

theorem mem_dictSet {x : String × PyObj} {d : Store} {k : String} {v : PyObj}
    (hx : x ∈ dictSet d k v) : x ∈ d ∨ x = (k, v) := by
  unfold dictSet at hx
  cases h : containsKey d k with
  | true =>
    simp only [h, cond_true, List.mem_map] at hx
    obtain ⟨p, hp, he⟩ := hx
    cases hpk : (p.1 == k) with
    | true => right; rw [hpk, cond_true] at he; exact he.symm
    | false => left; rw [hpk, cond_false] at he; rw [← he]; exact hp
  | false =>
    simp only [h, cond_false, List.mem_append, List.mem_singleton] at hx
    exact hx

theorem lookup_filter_out (d : Store) (k : String) :
    (d.filter fun p => !(p.1 == k)).lookup k = Option.none := by
  induction d with
  | nil => simp [List.lookup]
  | cons a t ih =>
    cases ha : (a.1 == k) with
    | true => simpa [List.filter, ha] using ih
    | false =>
      have hk : (k == a.1) = false := beq_comm_false ha
      simpa [List.filter, ha, List.lookup, hk] using ih

theorem lookup_not_contains (d : Store) (k : String)
    (h : containsKey d k = false) : d.lookup k = Option.none := by
  induction d with
  | nil => simp [List.lookup]
  | cons a t ih =>
    simp only [containsKey, List.any_cons, Bool.or_eq_false_iff] at h
    have hk : (k == a.1) = false := beq_comm_false h.1
    simp only [List.lookup, hk]
    exact ih (by simpa [containsKey] using h.2)

theorem delete_data_lookup (d : Store) (k : String) :
    (delete_data d k).1.lookup k = Option.none := by
  unfold delete_data
  cases h : containsKey d k with
  | true => simpa using lookup_filter_out d k
  | false => simpa using lookup_not_contains d k h

theorem delete_data_snd (d : Store) (k : String) :
    (delete_data d k).2 = containsKey d k := by
  unfold delete_data
  cases h : containsKey d k <;> simp [h]

theorem update_data_entriesOK (d : Store) (k : String) (v : PyObj)
    (hd : EntriesOK d) : EntriesOK (update_data d k v).1 := by
  by_cases hv : 25 * MB ≤ getSize v
  · rw [update_data_reject_value d k v hv]; exact hd
  · by_cases h50 : 50 * MB ≤ storeSize d
    · rw [update_data_reject_total d k v (not_le.mp hv) h50]; exact hd
    · rw [update_data_commit d k v (not_le.mp hv) (not_le.mp h50)]
      intro p hp
      rcases mem_dictSet hp with h | h
      · exact hd p h
      · rw [h]; exact not_le.mp hv

theorem delete_data_entriesOK (d : Store) (k : String)
    (hd : EntriesOK d) : EntriesOK (delete_data d k).1 := by
  unfold delete_data
  cases h : containsKey d k with
  | true =>
    simp only [cond_true]
    intro p hp
    exact hd p (List.mem_of_mem_filter hp)
  | false => simpa using hd

theorem applyOp_entriesOK (d : Store) (op : Op)
    (hd : EntriesOK d) : EntriesOK (applyOp d op) := by
  cases op with
  | update k v => exact update_data_entriesOK d k v hd
  | delete k => exact delete_data_entriesOK d k hd

theorem foldl_entriesOK (ops : List Op) :
    ∀ d : Store, EntriesOK d → EntriesOK (ops.foldl applyOp d) := by
  induction ops with
  | nil => intro d hd; exact hd
  | cons op t ih => intro d hd; exact ih _ (applyOp_entriesOK d op hd)

theorem run_entriesOK (ops : List Op) : EntriesOK (run ops) :=
  foldl_entriesOK ops [] (fun p hp => absurd hp (List.not_mem_nil p))

theorem update_data_success_pre (d : Store) (k : String) (v : PyObj) (d' : Store)
    (h : update_data d k v = (d', true)) : storeSize d < 50 * MB := by
  by_contra hge
  rw [not_lt] at hge
  by_cases hv : 25 * MB ≤ getSize v
  · rw [update_data_reject_value d k v hv] at h
    simp at h
  · rw [update_data_reject_total d k v (not_le.mp hv) hge] at h
    simp at h

theorem update_data_success_eq (d : Store) (k : String) (v : PyObj) (d' : Store)
    (h : update_data d k v = (d', true)) : d' = dictSet d k v := by
  by_cases hv : 25 * MB ≤ getSize v
  · rw [update_data_reject_value d k v hv] at h; simp at h
  · by_cases h50 : 50 * MB ≤ storeSize d
    · rw [update_data_reject_total d k v (not_le.mp hv) h50] at h; simp at h
    · rw [update_data_commit d k v (not_le.mp hv) (not_le.mp h50)] at h
      exact (Prod.mk.injEq _ _ _ _ ▸ h).1.symm

/-! ## Claim theorems -/

/-- Claim C1, counterexample.  The claim says an `update` whose candidate is
below 25 MB is rejected whenever the total recomputed *as if the entry were
inserted* is ≥ 50 MB.  With two 24 MB entries already committed, a third
24 MB candidate would push the as-if-inserted total to ≈ 72 MB ≥ 50 MB, yet
`update_data` accepts it, because the code compares only the *current* total
(≈ 48 MB) against 50 MB. -/
theorem C1_counterexample :
    getSize (PyObj.bytes (24 * MB)) < 25 * MB ∧
    50 * MB ≤ storeSize (dictSet
      [("a", PyObj.bytes (24 * MB)), ("b", PyObj.bytes (24 * MB))]
      "c" (PyObj.bytes (24 * MB))) ∧
    (update_data [("a", PyObj.bytes (24 * MB)), ("b", PyObj.bytes (24 * MB))]
      "c" (PyObj.bytes (24 * MB))).2 = true :=
  ⟨by decide, by decide, by decide⟩

/-- Claim C1, amended.  For a candidate below 25 MB, `update_data` rejects
(returning `false` with the store unchanged) exactly when the *current*
total store size — before the entry is applied — is already ≥ 50 MB, and
otherwise commits the entry and returns `true`.  Hence the first update
issued from a state whose total has already reached 50 MB is rejected and
prior entries stay intact; the post-commit total is not what is checked. -/
theorem C1_update_quota_amended (d : Store) (k : String) (v : PyObj)
    (hv : getSize v < 25 * MB) :
    (50 * MB ≤ storeSize d → update_data d k v = (d, false)) ∧
    (storeSize d < 50 * MB → update_data d k v = (dictSet d k v, true)) :=
  ⟨fun h => update_data_reject_total d k v hv h,
   fun h => update_data_commit d k v hv h⟩

/-- Witness for `C1_update_quota_amended` at concrete stores. -/
theorem C1_update_quota_amended_witness :
    update_data [("a", PyObj.bytes (50 * MB))] "k" (PyObj.int 3)
      = ([("a", PyObj.bytes (50 * MB))], false) ∧
    update_data [] "k" (PyObj.int 3) = (dictSet [] "k" (PyObj.int 3), true) :=
  ⟨(C1_update_quota_amended [("a", PyObj.bytes (50 * MB))] "k" (PyObj.int 3)
      (by decide)).1 (by decide),
   (C1_update_quota_amended [] "k" (PyObj.int 3) (by decide)).2 (by decide)⟩

/-- Claim C2, counterexample.  Three accepted 24 MB updates are reachable
from the empty store, after which the sum of the entries' recursively
computed sizes is ≈ 72 MB ≥ 50 MB, violating the claimed aggregate
invariant. -/
theorem C2_counterexample :
    50 * MB ≤ ((run [Op.update "a" (PyObj.bytes (24 * MB)),
                     Op.update "b" (PyObj.bytes (24 * MB)),
                     Op.update "c" (PyObj.bytes (24 * MB))]).map
                 fun p => getSize p.2).sum := by
  decide

/-- Claim C2, amended.  In every store state reachable from the empty store
by `update_data` / `delete_data`, every entry's recursively computed value
size is < 25 MB.  The aggregate bound holds only in the weaker form that a
successful update requires the *pre-update* total store size to be below
50 MB; the total itself can exceed 50 MB after a commit. -/
theorem C2_reachable_invariant_amended (ops : List Op) :
    (∀ p ∈ run ops, getSize p.2 < 25 * MB) ∧
    (∀ (d : Store) (k : String) (v : PyObj) (d' : Store),
        update_data d k v = (d', true) → storeSize d < 50 * MB) :=
  ⟨run_entriesOK ops, fun d k v d' h => update_data_success_pre d k v d' h⟩

/-- Witness for `C2_reachable_invariant_amended` on a one-update run. -/
theorem C2_reachable_invariant_amended_witness :
    getSize (PyObj.int 5) < 25 * MB ∧ storeSize ([] : Store) < 50 * MB :=
  ⟨(C2_reachable_invariant_amended [Op.update "k" (PyObj.int 5)]).1
      ("k", PyObj.int 5) (List.Mem.head _),
   (C2_reachable_invariant_amended []).2 [] "k" (PyObj.int 5)
      [("k", PyObj.int 5)] rfl⟩

/-- Claim C3, counterexample.  Overwriting with the sentinel does *not*
remove the key from the store's mapping: after `update_data d k None` the
key is still present (bound to `None`), unlike after `delete_data`. -/
theorem C3_counterexample :
    containsKey (update_data [] "k" PyObj.none).1 "k" = true := by decide

/-- Claim C3, amended.  Overwriting a key with the sentinel commits the
entry `(k, None)`: the key remains present in the mapping, bound to the
sentinel, and still contributes its key and sentinel sizes to the
aggregate.  It is equivalent to `delete` only through the client read
interface, where both a sentinel-bound key and an absent key read as
`None`; `delete_data` actually removes the key. -/
theorem C3_sentinel_overwrite_amended (d : Store) (k : String)
    (hd : storeSize d < 50 * MB) :
    update_data d k PyObj.none = (dictSet d k PyObj.none, true) ∧
    (dictSet d k PyObj.none).lookup k = some PyObj.none ∧
    readFromStore (dictSet d k PyObj.none) k = PyObj.none ∧
    (delete_data d k).1.lookup k = Option.none := by
  refine ⟨update_data_commit d k PyObj.none (by decide) hd,
    lookup_dictSet_self d k PyObj.none, ?_, delete_data_lookup d k⟩
  rw [readFromStore, lookup_dictSet_self d k PyObj.none]

/-- Witness for `C3_sentinel_overwrite_amended` on the empty store. -/
theorem C3_sentinel_overwrite_amended_witness :
    update_data [] "k" PyObj.none = (dictSet [] "k" PyObj.none, true) ∧
    (dictSet [] "k" PyObj.none).lookup "k" = some PyObj.none ∧
    readFromStore (dictSet [] "k" PyObj.none) "k" = PyObj.none ∧
    (delete_data [] "k").1.lookup "k" = Option.none :=
  C3_sentinel_overwrite_amended [] "k" (by decide)

/-- Claim C5.  For any value whose recursively computed size is ≥ 25 MB,
`update_data` returns `false` and the store is completely unchanged: the
rejection happens before the store is touched, and no exception is raised
(the embedding is a total function). -/
theorem C5_oversize_value_rejected (d : Store) (k : String) (v : PyObj)
    (hv : 25 * MB ≤ getSize v) :
    update_data d k v = (d, false) := by
  unfold update_data
  simp [hv]

/-- Witness for `C5_oversize_value_rejected` with a 25 MB bytes value. -/
theorem C5_oversize_value_rejected_witness :
    update_data [("a", PyObj.int 1)] "k" (PyObj.bytes (25 * MB))
      = ([("a", PyObj.int 1)], false) :=
  C5_oversize_value_rejected [("a", PyObj.int 1)] "k" (PyObj.bytes (25 * MB))
    (by decide)

/-- Claim C6.  After a successful `update_data d k v`, looking the key up
in the store returns `v`; after `delete_data d k` the key is absent; and
`delete_data` returns `true` exactly when the key existed before the
call. -/
theorem C6_get_update_delete (d : Store) (k : String) (v : PyObj) (d' : Store)
    (h : update_data d k v = (d', true)) :
    d'.lookup k = some v ∧
    (delete_data d k).1.lookup k = Option.none ∧
    (delete_data d k).2 = containsKey d k := by
  refine ⟨?_, delete_data_lookup d k, delete_data_snd d k⟩
  rw [update_data_success_eq d k v d' h]
  exact lookup_dictSet_self d k v

/-- Witness for `C6_get_update_delete` on the empty store. -/
theorem C6_get_update_delete_witness :
    ([("k", PyObj.int 7)] : Store).lookup "k" = some (PyObj.int 7) ∧
    (delete_data [] "k").1.lookup "k" = Option.none ∧
    (delete_data [] "k").2 = containsKey [] "k" :=
  C6_get_update_delete [] "k" (PyObj.int 7) [("k", PyObj.int 7)] rfl

/-- Claim C7.  When `PythonServer.__init__`'s connection attempt fails for
any reason (refused or unexpected), the handle stays unset, every read
returns `None`, and arbitrarily many consecutive writes (in particular 100)
leave the store untouched; no exception propagates, the operations being
total. -/
theorem C7_failed_connect_degrades (r : ConnectResult)
    (hr : r ≠ ConnectResult.ok) (d : Store) (reads : List String)
    (writes : List (String × PyObj)) :
    (PythonServer.init r).shared_data = false ∧
    (∀ k ∈ reads, read_data (PythonServer.init r) d k = PyObj.none) ∧
    writes.foldl (fun s kv => write_data (PythonServer.init r) s kv.1 kv.2) d
      = d := by
  have hs : (PythonServer.init r).shared_data = false := by
    cases r with
    | ok => exact absurd rfl hr
    | refused => rfl
    | unexpected => rfl
  refine ⟨hs, fun k _ => by simp [read_data, hs], ?_⟩
  induction writes with
  | nil => rfl
  | cons a t ih =>
    have ha : write_data (PythonServer.init r) d a.1 a.2 = d := by
      simp [write_data, hs]
    simp only [List.foldl_cons]
    rw [ha]
    exact ih

/-- Witness for `C7_failed_connect_degrades` with 100 consecutive writes. -/
theorem C7_failed_connect_degrades_witness :
    (PythonServer.init ConnectResult.refused).shared_data = false ∧
    read_data (PythonServer.init ConnectResult.refused) [] "recording"
      = PyObj.none ∧
    (List.replicate 100 ("k", PyObj.int 1)).foldl
      (fun s kv => write_data (PythonServer.init ConnectResult.refused) s kv.1 kv.2)
      [] = [] := by
  obtain ⟨h1, h2, h3⟩ := C7_failed_connect_degrades ConnectResult.refused
    (by decide) [] ["recording"] (List.replicate 100 ("k", PyObj.int 1))
  exact ⟨h1, h2 "recording" (List.Mem.head _), h3⟩

/-- Claim C9.  `close` is idempotent — a second call has no further effect —
and for any client whose handle implies a live manager reference (as every
state produced by `__init__` satisfies), after `close` the handle is unset,
every read returns `None` and every write is a no-op, exactly as in the
never-connected state. -/
theorem C9_close_idempotent (c : ClientState)
    (hcm : c.shared_data = true → c.manager = true) :
    close (close c) = close c ∧
    (close c).shared_data = false ∧
    (∀ (d : Store) (k : String), read_data (close c) d k = PyObj.none) ∧
    (∀ (d : Store) (k : String) (v : PyObj), write_data (close c) d k v = d) := by
  cases hm : c.manager with
  | true =>
    have h1 : close c = ⟨false, false⟩ := by simp [close, hm]
    rw [h1]
    refine ⟨?_, ?_, ?_, ?_⟩ <;> simp [close, read_data, write_data]
  | false =>
    have h1 : close c = c := by simp [close, hm]
    have hs : c.shared_data = false := by
      cases hsd : c.shared_data with
      | true => exact absurd (hcm hsd) (by simp [hm])
      | false => rfl
    rw [h1]
    refine ⟨?_, ?_, ?_, ?_⟩ <;> simp [close, hm, hs, read_data, write_data]

/-- Witness for `C9_close_idempotent` on a connected client. -/
theorem C9_close_idempotent_witness :
    close (close ⟨true, true⟩) = close ⟨true, true⟩ ∧
    (close ⟨true, true⟩).shared_data = false ∧
    read_data (close ⟨true, true⟩) [("k", PyObj.int 1)] "k" = PyObj.none ∧
    write_data (close ⟨true, true⟩) [] "k" (PyObj.int 1) = [] := by
  obtain ⟨h1, h2, h3, h4⟩ := C9_close_idempotent ⟨true, true⟩ (fun _ => rfl)
  exact ⟨h1, h2, h3 _ _, h4 _ _ _⟩

/-- Claim C10.  Through the client's `read_data`, a store in which the key
is absent and a store in which the key is bound to the sentinel `None` are
indistinguishable: both reads return `None`. -/
theorem C10_sentinel_indistinguishable (c : ClientState)
    (hc : c.shared_data = true) (d1 d2 : Store) (k : String)
    (h1 : d1.lookup k = Option.none ∨ d1.lookup k = some PyObj.none)
    (h2 : d2.lookup k = Option.none ∨ d2.lookup k = some PyObj.none) :
    read_data c d1 k = PyObj.none ∧ read_data c d1 k = read_data c d2 k := by
  have e : ∀ d : Store, d.lookup k = Option.none ∨ d.lookup k = some PyObj.none →
      read_data c d k = PyObj.none := by
    intro d hd
    rcases hd with hd | hd <;> simp [read_data, hc, readFromStore, hd]
  exact ⟨e d1 h1, by rw [e d1 h1, e d2 h2]⟩

/-- Witness for `C10_sentinel_indistinguishable`: the empty store versus a
store holding the sentinel under the key. -/
theorem C10_sentinel_indistinguishable_witness :
    read_data ⟨true, true⟩ [] "k" = PyObj.none ∧
    read_data ⟨true, true⟩ [] "k" = read_data ⟨true, true⟩ [("k", PyObj.none)] "k" :=
  C10_sentinel_indistinguishable ⟨true, true⟩ rfl [] [("k", PyObj.none)] "k"
    (Or.inl rfl) (Or.inr rfl)

/-- Claim C8.  A poll cycle in which the command reads as the sentinel, or
in which the command already matches the local recording state (`true`
while logging, `false` while not logging), changes nothing at all: neither
the local state nor any stored value, the command deliberately left
un-cleared in the matching case. -/
theorem C8_no_transition_frame (st : DAQState)
    (h : read_data st.client st.store "recording_command" = PyObj.none
       ∨ (read_data st.client st.store "recording_command" = PyObj.bool true ∧
            st.is_logging = true)
       ∨ (read_data st.client st.store "recording_command" = PyObj.bool false ∧
            st.is_logging = false)) :
    external_toggle_logging st = st := by
  unfold external_toggle_logging
  rcases h with h | ⟨h, hl⟩ | ⟨h, hl⟩
  · rw [h]; rfl
  · rw [h]; simp [isNone, truthy, hl]
  · rw [h]; simp [isNone, truthy, hl]

/-- Witness for `C8_no_transition_frame` on an empty store (sentinel
case). -/
theorem C8_no_transition_frame_witness :
    external_toggle_logging ⟨false, ⟨true, true⟩, []⟩ = ⟨false, ⟨true, true⟩, []⟩ :=
  C8_no_transition_frame ⟨false, ⟨true, true⟩, []⟩ (Or.inl rfl)

/-- Claim C4, counterexample.  When the store is over the 50 MB aggregate
cap, the poll cycle still performs the local start transition but its
sentinel write-back is rejected by `update_data`, so `recording_command`
still reads back as `true`, not as the sentinel. -/
theorem C4_counterexample :
    (external_toggle_logging ⟨false, ⟨true, true⟩,
        [("recording_command", PyObj.bool true), ("x", PyObj.bytes (24 * MB)),
         ("y", PyObj.bytes (24 * MB)), ("z", PyObj.bytes (24 * MB))]⟩).is_logging
      = true ∧
    (external_toggle_logging ⟨false, ⟨true, true⟩,
        [("recording_command", PyObj.bool true), ("x", PyObj.bytes (24 * MB)),
         ("y", PyObj.bytes (24 * MB)), ("z", PyObj.bytes (24 * MB))]⟩).store.lookup
        "recording_command" = some (PyObj.bool true) :=
  ⟨rfl, rfl⟩

/-- Claim C4, amended.  Provided the client is connected and the store —
both before the cycle and after the `recording` status write — is under the
50 MB aggregate cap (so the bridge's write-backs are accepted): a poll with
`recording_command = true` and local state off performs the start
transition and clears the command to the sentinel, and a poll with
`recording_command = false` and local state on performs the stop transition
and clears the command. -/
theorem C4_poll_transition_amended (st : DAQState)
    (hc : st.client.shared_data = true)
    (h1 : storeSize st.store < 50 * MB)
    (h2on : storeSize (dictSet st.store "recording" (PyObj.int 1)) < 50 * MB)
    (h2off : storeSize (dictSet st.store "recording" (PyObj.int 0)) < 50 * MB) :
    (st.store.lookup "recording_command" = some (PyObj.bool true) →
       st.is_logging = false →
       (external_toggle_logging st).is_logging = true ∧
       (external_toggle_logging st).store.lookup "recording_command"
         = some PyObj.none) ∧
    (st.store.lookup "recording_command" = some (PyObj.bool false) →
       st.is_logging = true →
       (external_toggle_logging st).is_logging = false ∧
       (external_toggle_logging st).store.lookup "recording_command"
         = some PyObj.none) := by
  constructor
  · intro hcmd hlog
    have hrc : read_data st.client st.store "recording_command"
        = PyObj.bool true := by
      simp [read_data, hc, readFromStore, hcmd]
    have hw : write_data st.client st.store "recording" (PyObj.int 1)
        = dictSet st.store "recording" (PyObj.int 1) := by
      simp [write_data, hc,
        update_data_commit st.store "recording" (PyObj.int 1) (by decide) h1]
    have ht : toggle_logging st =
        { st with is_logging := true,
                  store := dictSet st.store "recording" (PyObj.int 1) } := by
      simp [toggle_logging, hlog, hw]
    have hw2 : write_data st.client (dictSet st.store "recording" (PyObj.int 1))
          "recording_command" PyObj.none
        = dictSet (dictSet st.store "recording" (PyObj.int 1))
          "recording_command" PyObj.none := by
      simp [write_data, hc,
        update_data_commit _ "recording_command" PyObj.none (by decide) h2on]
    have hmain : external_toggle_logging st =
        { st with is_logging := true,
                  store := dictSet (dictSet st.store "recording" (PyObj.int 1))
                    "recording_command" PyObj.none } := by
      simp only [external_toggle_logging, hrc, isNone, truthy, hlog,
        Bool.not_false, Bool.and_true, Bool.true_and, if_false, if_true, ht, hw2]
      simp
    rw [hmain]
    exact ⟨rfl, lookup_dictSet_self _ _ _⟩
  · intro hcmd hlog
    have hrc : read_data st.client st.store "recording_command"
        = PyObj.bool false := by
      simp [read_data, hc, readFromStore, hcmd]
    have hw : write_data st.client st.store "recording" (PyObj.int 0)
        = dictSet st.store "recording" (PyObj.int 0) := by
      simp [write_data, hc,
        update_data_commit st.store "recording" (PyObj.int 0) (by decide) h1]
    have ht : toggle_logging st =
        { st with is_logging := false,
                  store := dictSet st.store "recording" (PyObj.int 0) } := by
      simp [toggle_logging, hlog, hw]
    have hw2 : write_data st.client (dictSet st.store "recording" (PyObj.int 0))
          "recording_command" PyObj.none
        = dictSet (dictSet st.store "recording" (PyObj.int 0))
          "recording_command" PyObj.none := by
      simp [write_data, hc,
        update_data_commit _ "recording_command" PyObj.none (by decide) h2off]
    have hmain : external_toggle_logging st =
        { st with is_logging := false,
                  store := dictSet (dictSet st.store "recording" (PyObj.int 0))
                    "recording_command" PyObj.none } := by
      simp only [external_toggle_logging, hrc, isNone, truthy, hlog,
        Bool.not_true, Bool.and_false, Bool.false_and, Bool.and_true,
        Bool.true_and, if_false, if_true, ht, hw2]
      simp
    rw [hmain]
    exact ⟨rfl, lookup_dictSet_self _ _ _⟩

/-- Witness for `C4_poll_transition_amended`: a small store holding only
the latched command. -/
theorem C4_poll_transition_amended_witness :
    (external_toggle_logging ⟨false, ⟨true, true⟩,
        [("recording_command", PyObj.bool true)]⟩).is_logging = true ∧
    (external_toggle_logging ⟨false, ⟨true, true⟩,
        [("recording_command", PyObj.bool true)]⟩).store.lookup
      "recording_command" = some PyObj.none :=
  (C4_poll_transition_amended
    ⟨false, ⟨true, true⟩, [("recording_command", PyObj.bool true)]⟩
    rfl (by decide) (by decide) (by decide)).1 rfl rfl

end Nidaq
